import Mathlib

/-!
Shallow embedding of `supervisor_checks/check_runner.py`: the `CheckRunner`
class, which runs configured health checks against the processes of a
SupervisorD process group and restarts a process when a check fails.

Modelling conventions:
* SupervisorD's XML-RPC interface is an external collaborator; it is modelled
  as a record of pure functions, each returning `Except String _` where the
  `error` case stands for an `xmlrpclib.Fault` raised by the call.
* Side effects (log writes, RPC calls, the event acknowledgement) are recorded
  in an explicit trace of `Action`s, in the order the Python code performs
  them.  For the multi-process thread-pool branch the per-process traces are
  kept separately (interleaving is nondeterministic); where a single trace is
  needed, their concatenation is one admissible serialization.
* A Python function that can terminate by an uncaught exception returns its
  trace paired with an `Option String` (`some f` = the exception `f`
  propagated out of it).
-/

namespace CheckRunner

/-- Process states, from `supervisor.states.ProcessStates`. -/
inductive ProcessStates where
  | STOPPED
  | STARTING
  | RUNNING
  | BACKOFF
  | STOPPING
  | EXITED
  | FATAL
  | UNKNOWN
deriving DecidableEq, Repr

/-- A process descriptor as returned by `getAllProcessInfo` /
`getProcessInfo`; the code reads the keys `name`, `group` and `state`.  -/
structure ProcessSpec where
  name : String
  group : String
  state : ProcessStates
deriving DecidableEq, Repr

/-- `supervisor.options.make_namespec`: the qualified name used by the RPC
interface, `group:name`, collapsed to `name` when the group has the same
name. -/
def make_namespec (group name : String) : String :=
  if group = name then name else group ++ ":" ++ name

/-- The SupervisorD RPC interface (external collaborator).  Each method may
fail with a remote fault, modelled as `Except.error`. -/
structure RPC where
  getAllProcessInfo : Except String (List ProcessSpec)
  getProcessInfo : String → Except String ProcessSpec
  stopProcess : String → Except String Unit
  startProcess : String → Bool → Except String Unit

/-- Outcome of invoking one check capability on a process descriptor:
the call returns `True`, returns `False`, or raises an exception. -/
inductive CheckResult where
  | pass
  | fail
  | err (msg : String)
deriving DecidableEq, Repr

/-- A configured check instance: its `NAME` class attribute and its
`__call__(process_spec)` behaviour. -/
structure Check where
  NAME : String
  run : ProcessSpec → CheckResult

/-- One observable side effect of the runner, in program order. -/
inductive Action where
  | log (msg : String)
  | checkCall (checkName : String) (procName : String)
  | getAllCall
  | getInfoCall (nameSpec : String)
  | stopCall (nameSpec : String)
  | startCall (nameSpec : String) (wait : Bool)
  | ack
deriving DecidableEq, Repr

/-- `MAX_THREADS = 16`. -/
def MAX_THREADS : Nat := 16

/-- `TICK_EVENTS = {'TICK_5', 'TICK_60', 'TICK_3600'}`. -/
def TICK_EVENTS : List String := ["TICK_5", "TICK_60", "TICK_3600"]

/-- `CheckRunner._restart_process`: re-fetch the process descriptor through a
fresh RPC client, and only when the fresh state is RUNNING attempt
`stopProcess` (fault logged, then continue) followed by
`startProcess(name, False)` (fault logged).  The `getProcessInfo` call is not
wrapped in a `try`, so its fault propagates out (second component `some f`). -/
def restart_process (rpc : RPC) (process_spec : ProcessSpec) :
    List Action × Option String :=
  let name_spec := make_namespec process_spec.group process_spec.name
  match rpc.getProcessInfo name_spec with
  | .error f => ([Action.getInfoCall name_spec], some f)
  | .ok fresh_spec =>
    if fresh_spec.state = ProcessStates.RUNNING then
      let stop_trace :=
        match rpc.stopProcess name_spec with
        | .ok _ =>
            [Action.stopCall name_spec,
             Action.log ("Stopped process " ++ name_spec)]
        | .error f =>
            [Action.stopCall name_spec,
             Action.log ("Failed to stop process " ++ name_spec ++ ": " ++ f)]
      let start_trace :=
        match rpc.startProcess name_spec false with
        | .ok _ => [Action.startCall name_spec false]
        | .error f =>
            [Action.startCall name_spec false,
             Action.log ("Failed to start process " ++ name_spec ++ ": " ++ f)]
      ([Action.getInfoCall name_spec,
        Action.log ("Trying to stop process " ++ name_spec)] ++
       stop_trace ++
       [Action.log ("Starting process " ++ name_spec)] ++ start_trace, none)
    else
      ([Action.getInfoCall name_spec,
        Action.log (name_spec ++ " not in RUNNING state, cannot restart")],
       none)

/-- `CheckRunner._check_and_restart`: run the configured checks in order; on
the first `False` result call `_restart_process` and return.  The whole body
of the loop, including the `return self._restart_process(...)`, sits inside
`try: ... except Exception`, so an exception raised by a check OR by the
restart itself is logged as a check error and the loop continues with the
next check.  This function itself never raises. -/
def check_and_restart (rpc : RPC) (checks : List Check)
    (process_spec : ProcessSpec) : List Action :=
  match checks with
  | [] => []
  | check :: rest =>
    [Action.log ("Performing " ++ check.NAME ++ " check for process name " ++
        process_spec.name),
     Action.checkCall check.NAME process_spec.name] ++
    match check.run process_spec with
    | CheckResult.fail =>
        let restart := restart_process rpc process_spec
        [Action.log (check.NAME ++ " check failed for process " ++
            process_spec.name ++ ". Trying to restart.")] ++
        restart.1 ++
        (match restart.2 with
         | none => []
         | some f =>
             Action.log (check.NAME ++ " check raised error for process " ++
               process_spec.name ++ ": " ++ f) ::
             check_and_restart rpc rest process_spec)
    | CheckResult.pass =>
        Action.log (check.NAME ++ " check succeeded for process " ++
          process_spec.name) ::
        check_and_restart rpc rest process_spec
    | CheckResult.err m =>
        Action.log (check.NAME ++ " check raised error for process " ++
          process_spec.name ++ ": " ++ m) ::
        check_and_restart rpc rest process_spec

/-- `CheckRunner._get_process_spec_list`: enumerate all processes and keep
those in the configured group whose state matches (when a state is given).
The `getAllProcessInfo` call is not guarded, so its fault propagates. -/
def get_process_spec_list (rpc : RPC) (process_group : String)
    (state : Option ProcessStates) :
    List Action × Except String (List ProcessSpec) :=
  match rpc.getAllProcessInfo with
  | .error f => ([Action.getAllCall], .error f)
  | .ok specs =>
      ([Action.getAllCall],
       .ok (specs.filter (fun ps =>
         ps.group = process_group ∧ (state = none ∨ state = some ps.state))))

/-- Result of one `_check_processes` cycle, keeping the branch structure:
enumeration fault propagated, zero matches (log only), exactly one match run
synchronously, or several matches submitted to a
`ThreadPoolExecutor(MAX_THREADS)` (per-process traces kept separately). -/
inductive DispatchResult where
  | enumFault (trace : List Action) (fault : String)
  | noProcesses (trace : List Action)
  | single (trace : List Action)
  | pooled (cap : Nat) (pre : List Action) (tasks : List (List Action))
deriving DecidableEq, Repr

/-- The full action trace of a dispatch; for the pooled case the per-process
traces are concatenated (one admissible serialization). -/
def DispatchResult.trace : DispatchResult → List Action
  | .enumFault t _ => t
  | .noProcesses t => t
  | .single t => t
  | .pooled _ pre tasks => pre ++ tasks.flatten

/-- The exception propagating out of the dispatch, if any. -/
def DispatchResult.fault : DispatchResult → Option String
  | .enumFault _ f => some f
  | _ => none

/-- `CheckRunner._check_processes`: one check cycle for the process group. -/
def check_processes (rpc : RPC) (checks : List Check)
    (process_group : String) : DispatchResult :=
  match get_process_spec_list rpc process_group (some ProcessStates.RUNNING) with
  | (t, .error f) => .enumFault t f
  | (t, .ok []) =>
      .noProcesses (t ++
        [Action.log ("No processes in state RUNNING found for process group "
          ++ process_group)])
  | (t, .ok [process_spec]) =>
      .single (t ++ check_and_restart rpc checks process_spec)
  | (t, .ok process_specs) =>
      .pooled MAX_THREADS t
        (process_specs.map (check_and_restart rpc checks))

/-! ## The main loop (`CheckRunner.run`) -/

/-- What one blocking `childutils.listener.wait` iteration of the main loop
sees: the stop event already set at the loop head, the wait raising
`WaitInterrupted`, or a received event with its parsed header block.  Each
event carries the `RPC` state the control plane presents during that tick. -/
inductive LoopInput where
  | stopObserved
  | interrupted
  | event (headers : List (String × String)) (rpc : RPC)

/-- How a run of the main loop ended. -/
inductive RunOutcome where
  | normalExit
  | keyError
  | enumFault (fault : String)
  | pending
deriving DecidableEq, Repr

/-- `headers[EVENT_NAME_KEY]`: dictionary lookup; `none` models the
`KeyError` raised when the key is absent. -/
def lookupHeader (headers : List (String × String)) (key : String) :
    Option String :=
  (headers.find? (fun kv => kv.1 = key)).map (fun kv => kv.2)

/-- The `while not self._stop_event.is_set()` loop of `CheckRunner.run`,
driven by the script of wait results.  Only the `wait` call is inside a
`try`, so a `KeyError` on the missing `eventname` header or an exception
propagating out of `_check_processes` terminates the loop (and with it the
daemon) before the event is acknowledged.  An exhausted script leaves the
loop blocked on the next wait (`pending`). -/
def runLoop (checks : List Check) (process_group : String) :
    List LoopInput → List Action × RunOutcome
  | [] => ([], .pending)
  | LoopInput.stopObserved :: _ => ([Action.log "Done."], .normalExit)
  | LoopInput.interrupted :: _ =>
      ([Action.log ("Health check for " ++ process_group ++
          " process group has been told to stop."),
        Action.log "Done."], .normalExit)
  | LoopInput.event headers rpc :: rest =>
      match lookupHeader headers "eventname" with
      | none => ([], .keyError)
      | some event_type =>
          if event_type ∈ TICK_EVENTS then
            let dispatch := check_processes rpc checks process_group
            match dispatch.fault with
            | some f => (dispatch.trace, .enumFault f)
            | none =>
                let r := runLoop checks process_group rest
                (dispatch.trace ++ [Action.ack] ++ r.1, r.2)
          else
            let r := runLoop checks process_group rest
            ([Action.log ("Received unsupported event type: " ++ event_type),
              Action.ack] ++ r.1, r.2)

/-- `CheckRunner.run`: the startup log lines followed by the main loop. -/
def run (checks : List Check) (process_group : String)
    (script : List LoopInput) : List Action × RunOutcome :=
  let r := runLoop checks process_group script
  ([Action.log ("Starting the health check for " ++ process_group ++
      " process group."),
    Action.log "Installing signal handlers."] ++ r.1, r.2)

/-! ## Logging (`CheckRunner._log`) -/

/-- A wall-clock instant, the fields `datetime.datetime.now()` exposes to
`strftime`. -/
structure DateTime where
  year : Nat
  month : Nat
  day : Nat
  hour : Nat
  minute : Nat
  second : Nat
deriving DecidableEq, Repr

/-- Zero-pad to two digits, as strftime does for the numeric codes used
here. -/
def pad2 (n : Nat) : String :=
  if n < 10 then "0" ++ toString n else toString n

/-- Zero-pad the year to four digits (`%Y`). -/
def pad4 (n : Nat) : String :=
  if n < 10 then "000" ++ toString n
  else if n < 100 then "00" ++ toString n
  else if n < 1000 then "0" ++ toString n
  else toString n

/-- `strftime` over the directives the source's format string can use:
`%Y` year, `%m` month, `%M` minute, `%d` day, `%H` hour, `%S` second. -/
def strftimeAux (dt : DateTime) : List Char → String
  | [] => ""
  | '%' :: c :: rest =>
      (match c with
       | 'Y' => pad4 dt.year
       | 'm' => pad2 dt.month
       | 'M' => pad2 dt.minute
       | 'd' => pad2 dt.day
       | 'H' => pad2 dt.hour
       | 'S' => pad2 dt.second
       | _ => String.mk ['%', c]) ++ strftimeAux dt rest
  | c :: rest => String.mk [c] ++ strftimeAux dt rest

/-- `datetime.datetime.now().strftime(fmt)`. -/
def strftime (dt : DateTime) (fmt : String) : String :=
  strftimeAux dt fmt.data

/-- An operation on the `sys.stderr` stream. -/
inductive StderrOp where
  | write (s : String)
  | flush
deriving DecidableEq, Repr

/-- `CheckRunner._log`: format the current time with
`'%Y/%M/%d %H:%M:%S'` (note: `%M` is the minute, so the middle field of the
date part is the minute, not the month), write
`'<timestamp> [<name>] <message>\n'` to stderr and flush immediately.
`msg` stands for the already-interpolated `msg % args`. -/
def log_method (dt : DateTime) (name msg : String) : List StderrOp :=
  let curr_dt := strftime dt "%Y/%M/%d %H:%M:%S"
  [StderrOp.write (curr_dt ++ " [" ++ name ++ "] " ++ msg ++ "\n"),
   StderrOp.flush]

/-! ## Bounded worker pool (`concurrent.futures.ThreadPoolExecutor`)

Model of the executor the multi-process branch uses, following the library's
documented behaviour: `ThreadPoolExecutor(MAX_THREADS)` spawns worker threads
lazily — at most one new thread per `submit`, and never beyond `max_workers` —
and the `with` block's exit calls `shutdown(wait=True)`, which returns only
once every submitted task has finished.  States count the submitted, queued,
in-flight and finished tasks and the spawned threads; `cap` is `max_workers`
and `total` the number of tasks the dispatcher submits (one per process). -/

/-- A snapshot of the pool during one tick. -/
structure PoolState where
  submitted : Nat
  pendingTasks : Nat
  inFlight : Nat
  done : Nat
  threads : Nat
deriving DecidableEq, Repr

/-- The empty pool, right after `ThreadPoolExecutor(cap)` is constructed. -/
def PoolState.init : PoolState := ⟨0, 0, 0, 0, 0⟩

/-- One scheduling step of the pool: a `submit` (spawning a thread if below
the cap, or just queueing), an idle thread picking up a queued task, or a
running task finishing. -/
inductive PoolStep (cap total : Nat) : PoolState → PoolState → Prop where
  | submitSpawn (s : PoolState) :
      s.submitted < total → s.threads < cap →
      PoolStep cap total s
        ⟨s.submitted + 1, s.pendingTasks + 1, s.inFlight, s.done,
         s.threads + 1⟩
  | submitQueue (s : PoolState) :
      s.submitted < total →
      PoolStep cap total s
        ⟨s.submitted + 1, s.pendingTasks + 1, s.inFlight, s.done, s.threads⟩
  | start (s : PoolState) :
      0 < s.pendingTasks → s.inFlight < s.threads →
      PoolStep cap total s
        ⟨s.submitted, s.pendingTasks - 1, s.inFlight + 1, s.done, s.threads⟩
  | finish (s : PoolState) :
      0 < s.inFlight →
      PoolStep cap total s
        ⟨s.submitted, s.pendingTasks, s.inFlight - 1, s.done + 1, s.threads⟩

/-- Pool states reachable during one tick. -/
inductive PoolReachable (cap total : Nat) : PoolState → Prop where
  | init : PoolReachable cap total PoolState.init
  | step {s t : PoolState} : PoolReachable cap total s →
      PoolStep cap total s t → PoolReachable cap total t

/-- The `with` block may exit only when all tasks have been submitted and
none is queued or still running (`shutdown(wait=True)`). -/
def poolExit (total : Nat) (s : PoolState) : Prop :=
  s.submitted = total ∧ s.pendingTasks = 0 ∧ s.inFlight = 0

/-! ## Trace observations -/

/-- Is the action an RPC call that acts on a process (stop or start)? -/
def Action.isStopOrStart : Action → Bool
  | Action.stopCall _ => true
  | Action.startCall _ _ => true
  | _ => false

/-- Is the action the `getProcessInfo` re-fetch that opens
`_restart_process`?  Each invocation of `_restart_process` performs exactly
one, as its first action, so counting these counts restart attempts. -/
def Action.isRestartFetch : Action → Bool
  | Action.getInfoCall _ => true
  | _ => false

/-- How many times `_restart_process` was entered in a trace. -/
def restartAttempts (t : List Action) : Nat :=
  t.countP Action.isRestartFetch

/-- The `NAME`s of the checks invoked in a trace, in invocation order. -/
def checksRun (t : List Action) : List String :=
  t.filterMap (fun a =>
    match a with
    | Action.checkCall n _ => some n
    | _ => none)

/-! ## Concrete fixtures (used by witnesses and counterexamples) -/

/-- A RUNNING process `grp:proc`, as the enumeration pass would list it. -/
def psW : ProcessSpec := ⟨"proc", "grp", ProcessStates.RUNNING⟩

/-- A second RUNNING process in the same group. -/
def psW2 : ProcessSpec := ⟨"proc2", "grp", ProcessStates.RUNNING⟩

/-- A fresh descriptor for `grp:proc`, still RUNNING. -/
def freshRunning : ProcessSpec := ⟨"proc", "grp", ProcessStates.RUNNING⟩

/-- A fresh descriptor for `grp:proc` that has left RUNNING. -/
def freshStopped : ProcessSpec := ⟨"proc", "grp", ProcessStates.STOPPED⟩

/-- A control plane where every call succeeds. -/
def rpcOk : RPC :=
  ⟨Except.ok [psW], fun _ => Except.ok freshRunning,
   fun _ => Except.ok (), fun _ _ => Except.ok ()⟩

/-- A control plane whose re-fetch reports the process no longer RUNNING. -/
def rpcNotRunning : RPC :=
  ⟨Except.ok [psW], fun _ => Except.ok freshStopped,
   fun _ => Except.ok (), fun _ _ => Except.ok ()⟩

/-- A control plane where both `stopProcess` and `startProcess` fault. -/
def rpcStopStartFault : RPC :=
  ⟨Except.ok [psW], fun _ => Except.ok freshRunning,
   fun _ => Except.error "NOT_RUNNING", fun _ _ => Except.error "SPAWN_ERROR"⟩

/-- A control plane whose `getProcessInfo` re-fetch faults. -/
def rpcInfoFault : RPC :=
  ⟨Except.ok [psW], fun _ => Except.error "BAD_NAME",
   fun _ => Except.ok (), fun _ _ => Except.ok ()⟩

/-- A control plane whose enumeration (`getAllProcessInfo`) faults. -/
def rpcEnumFault : RPC :=
  ⟨Except.error "connection refused", fun _ => Except.ok freshRunning,
   fun _ => Except.ok (), fun _ _ => Except.ok ()⟩

/-- A control plane with no processes at all. -/
def rpcEmpty : RPC :=
  ⟨Except.ok [], fun _ => Except.ok freshRunning,
   fun _ => Except.ok (), fun _ _ => Except.ok ()⟩

/-- A control plane listing two RUNNING processes of the group. -/
def rpcTwo : RPC :=
  ⟨Except.ok [psW, psW2], fun _ => Except.ok freshRunning,
   fun _ => Except.ok (), fun _ _ => Except.ok ()⟩

/-- Check `A`: always passes. -/
def checkPassA : Check := ⟨"A", fun _ => CheckResult.pass⟩

/-- Check `B`: always fails. -/
def checkFailB : Check := ⟨"B", fun _ => CheckResult.fail⟩

/-- Check `C`: always passes. -/
def checkPassC : Check := ⟨"C", fun _ => CheckResult.pass⟩

/-- Check `C`: always fails (for the double-restart counterexample). -/
def checkFailC : Check := ⟨"C", fun _ => CheckResult.fail⟩

/-- Check `D`: always raises. -/
def checkErrD : Check := ⟨"D", fun _ => CheckResult.err "boom"⟩

/-! ## Helper lemmas -/

theorem restartAttempts_nil : restartAttempts [] = 0 := rfl

theorem restartAttempts_cons (a : Action) (t : List Action) :
    restartAttempts (a :: t) =
      restartAttempts t + if a.isRestartFetch then 1 else 0 :=
  List.countP_cons _ _ _

theorem restartAttempts_append (s t : List Action) :
    restartAttempts (s ++ t) = restartAttempts s + restartAttempts t :=
  List.countP_append _ _ _

theorem checksRun_append (s t : List Action) :
    checksRun (s ++ t) = checksRun s ++ checksRun t :=
  List.filterMap_append _ _ _

/-- `_restart_process` performs exactly one `getProcessInfo` re-fetch. -/
theorem restartAttempts_restart (rpc : RPC) (ps : ProcessSpec) :
    restartAttempts (restart_process rpc ps).1 = 1 := by
  unfold restart_process
  cases h1 : rpc.getProcessInfo (make_namespec ps.group ps.name) with
  | error f => simp [h1, restartAttempts, Action.isRestartFetch]
  | ok fresh_spec =>
    by_cases h : fresh_spec.state = ProcessStates.RUNNING <;>
      cases h2 : rpc.stopProcess (make_namespec ps.group ps.name) <;>
        cases h3 : rpc.startProcess (make_namespec ps.group ps.name) false <;>
          simp [h1, h, h2, h3, restartAttempts, List.countP_cons,
            List.countP_append, Action.isRestartFetch]

/-- `_restart_process` invokes no check. -/
theorem checksRun_restart (rpc : RPC) (ps : ProcessSpec) :
    checksRun (restart_process rpc ps).1 = [] := by
  unfold restart_process
  cases h1 : rpc.getProcessInfo (make_namespec ps.group ps.name) with
  | error f => simp [h1, checksRun]
  | ok fresh_spec =>
    by_cases h : fresh_spec.state = ProcessStates.RUNNING <;>
      cases h2 : rpc.stopProcess (make_namespec ps.group ps.name) <;>
        cases h3 : rpc.startProcess (make_namespec ps.group ps.name) false <;>
          simp [h1, h, h2, h3, checksRun]

/-- Unfolding `_check_and_restart` for a passing head check. -/
theorem check_and_restart_cons_pass (rpc : RPC) (check : Check)
    (rest : List Check) (ps : ProcessSpec)
    (h : check.run ps = CheckResult.pass) :
    check_and_restart rpc (check :: rest) ps =
      Action.log ("Performing " ++ check.NAME ++ " check for process name " ++
        ps.name) ::
      Action.checkCall check.NAME ps.name ::
      Action.log (check.NAME ++ " check succeeded for process " ++ ps.name) ::
      check_and_restart rpc rest ps := by
  simp [check_and_restart, h]

/-- Unfolding `_check_and_restart` for a head check that raises. -/
theorem check_and_restart_cons_err (rpc : RPC) (check : Check)
    (rest : List Check) (ps : ProcessSpec) (m : String)
    (h : check.run ps = CheckResult.err m) :
    check_and_restart rpc (check :: rest) ps =
      Action.log ("Performing " ++ check.NAME ++ " check for process name " ++
        ps.name) ::
      Action.checkCall check.NAME ps.name ::
      Action.log (check.NAME ++ " check raised error for process " ++
        ps.name ++ ": " ++ m) ::
      check_and_restart rpc rest ps := by
  simp [check_and_restart, h]

/-- Unfolding `_check_and_restart` for a failing head check whose restart
returns without raising: the iteration returns, later checks never run. -/
theorem check_and_restart_cons_fail (rpc : RPC) (check : Check)
    (rest : List Check) (ps : ProcessSpec)
    (h : check.run ps = CheckResult.fail)
    (hnr : (restart_process rpc ps).2 = none) :
    check_and_restart rpc (check :: rest) ps =
      Action.log ("Performing " ++ check.NAME ++ " check for process name " ++
        ps.name) ::
      Action.checkCall check.NAME ps.name ::
      Action.log (check.NAME ++ " check failed for process " ++ ps.name ++
        ". Trying to restart.") ::
      (restart_process rpc ps).1 := by
  simp [check_and_restart, h, hnr]

/-! ## Claim C3 -/

/-- Claim C3 (confirmed): in every restart attempt, `stopProcess` /
`startProcess` are invoked only if the descriptor freshly re-fetched via
`getProcessInfo` at restart time is RUNNING; a non-RUNNING re-fetch only
logs and performs no stop or start; and the outcome never depends on the
state field of the (possibly stale) descriptor from the enumeration pass. -/
theorem stop_start_only_when_refetched_running (rpc : RPC) (ps : ProcessSpec) :
    (∀ a ∈ (restart_process rpc ps).1, a.isStopOrStart = true →
      ∃ fresh_spec,
        rpc.getProcessInfo (make_namespec ps.group ps.name) =
          Except.ok fresh_spec ∧
        fresh_spec.state = ProcessStates.RUNNING) ∧
    (∀ fresh_spec,
      rpc.getProcessInfo (make_namespec ps.group ps.name) =
        Except.ok fresh_spec →
      fresh_spec.state ≠ ProcessStates.RUNNING →
      restart_process rpc ps =
        ([Action.getInfoCall (make_namespec ps.group ps.name),
          Action.log (make_namespec ps.group ps.name ++
            " not in RUNNING state, cannot restart")], none)) ∧
    (∀ st₁ st₂ : ProcessStates,
      restart_process rpc ⟨ps.name, ps.group, st₁⟩ =
        restart_process rpc ⟨ps.name, ps.group, st₂⟩) := by
  refine ⟨?_, ?_, fun st₁ st₂ => rfl⟩
  · intro a ha hss
    simp only [restart_process] at ha
    cases h1 : rpc.getProcessInfo (make_namespec ps.group ps.name) with
    | error f =>
        exfalso
        rw [h1] at ha
        simp only [List.mem_singleton] at ha
        subst ha
        simp [Action.isStopOrStart] at hss
    | ok fresh_spec =>
        refine ⟨fresh_spec, rfl, ?_⟩
        by_cases h : fresh_spec.state = ProcessStates.RUNNING
        · exact h
        · exfalso
          rw [h1] at ha
          simp only [h, if_false, List.mem_cons, List.mem_singleton,
            List.not_mem_nil, or_false] at ha
          rcases ha with rfl | rfl <;> simp [Action.isStopOrStart] at hss
  · intro fresh_spec h1 h2
    simp only [restart_process]
    rw [h1]
    simp [h2]

/-! ## Claim C5 -/

/-- Claim C5 (confirmed): a check that raises is caught at the per-check
boundary: the error is logged with the check's `NAME` and the process name,
it contributes no restart attempt, and the remaining checks run exactly as if
the erroring check had been skipped. -/
theorem check_error_logged_and_skipped (rpc : RPC) (check : Check)
    (rest : List Check) (ps : ProcessSpec) (m : String)
    (h : check.run ps = CheckResult.err m) :
    check_and_restart rpc (check :: rest) ps =
      [Action.log ("Performing " ++ check.NAME ++
         " check for process name " ++ ps.name),
       Action.checkCall check.NAME ps.name,
       Action.log (check.NAME ++ " check raised error for process " ++
         ps.name ++ ": " ++ m)] ++
      check_and_restart rpc rest ps ∧
    restartAttempts (check_and_restart rpc (check :: rest) ps) =
      restartAttempts (check_and_restart rpc rest ps) ∧
    checksRun (check_and_restart rpc (check :: rest) ps) =
      check.NAME :: checksRun (check_and_restart rpc rest ps) := by
  have he := check_and_restart_cons_err rpc check rest ps m h
  refine ⟨by rw [he]; simp, ?_, ?_⟩
  · rw [he]
    simp [restartAttempts, List.countP_cons, Action.isRestartFetch]
  · rw [he]
    simp [checksRun]

/-- Witness for C5: check `D` raises against `grp:proc`; the error is logged
and check `A` still runs afterwards. -/
theorem check_error_logged_and_skipped_witness :
    check_and_restart rpcOk [checkErrD, checkPassA] psW =
      [Action.log ("Performing " ++ checkErrD.NAME ++
         " check for process name " ++ psW.name),
       Action.checkCall checkErrD.NAME psW.name,
       Action.log (checkErrD.NAME ++ " check raised error for process " ++
         psW.name ++ ": " ++ "boom")] ++
      check_and_restart rpcOk [checkPassA] psW ∧
    restartAttempts (check_and_restart rpcOk [checkErrD, checkPassA] psW) =
      restartAttempts (check_and_restart rpcOk [checkPassA] psW) ∧
    checksRun (check_and_restart rpcOk [checkErrD, checkPassA] psW) =
      checkErrD.NAME :: checksRun (check_and_restart rpcOk [checkPassA] psW) :=
  check_error_logged_and_skipped rpcOk checkErrD [checkPassA] psW "boom" rfl

/-! ## Claim C6 -/

/-- Claim C6 (confirmed): when the re-fetched state is RUNNING and
`stopProcess` fails with a fault, the failure is logged and `startProcess`
is still attempted with the no-wait flag; a `startProcess` fault is logged
only; neither fault propagates out of the restart. -/
theorem stop_fault_still_starts (rpc : RPC) (ps : ProcessSpec)
    (fresh_spec : ProcessSpec) (f : String)
    (hfetch : rpc.getProcessInfo (make_namespec ps.group ps.name) =
      Except.ok fresh_spec)
    (hrun : fresh_spec.state = ProcessStates.RUNNING)
    (hstop : rpc.stopProcess (make_namespec ps.group ps.name) =
      Except.error f) :
    (restart_process rpc ps).2 = none ∧
    Action.startCall (make_namespec ps.group ps.name) false ∈
      (restart_process rpc ps).1 ∧
    Action.log ("Failed to stop process " ++ make_namespec ps.group ps.name ++
      ": " ++ f) ∈ (restart_process rpc ps).1 ∧
    (∀ g, rpc.startProcess (make_namespec ps.group ps.name) false =
        Except.error g →
      Action.log ("Failed to start process " ++
        make_namespec ps.group ps.name ++ ": " ++ g) ∈
        (restart_process rpc ps).1) := by
  simp only [restart_process]
  rw [hfetch]
  cases h4 : rpc.startProcess (make_namespec ps.group ps.name) false <;>
    refine ⟨?_, ?_, ?_, ?_⟩ <;>
      simp [hrun, hstop, h4]

/-- Witness for C6: both `stopProcess` and `startProcess` fault against a
RUNNING re-fetch; the start is still attempted and both faults are logged. -/
theorem stop_fault_still_starts_witness :
    (restart_process rpcStopStartFault psW).2 = none ∧
    Action.startCall (make_namespec psW.group psW.name) false ∈
      (restart_process rpcStopStartFault psW).1 ∧
    Action.log ("Failed to stop process " ++
      make_namespec psW.group psW.name ++ ": " ++ "NOT_RUNNING") ∈
      (restart_process rpcStopStartFault psW).1 ∧
    (∀ g, rpcStopStartFault.startProcess
        (make_namespec psW.group psW.name) false = Except.error g →
      Action.log ("Failed to start process " ++
        make_namespec psW.group psW.name ++ ": " ++ g) ∈
        (restart_process rpcStopStartFault psW).1) :=
  stop_fault_still_starts rpcStopStartFault psW freshRunning "NOT_RUNNING"
    rfl rfl rfl

/-! ## Claim C7 -/

/-- Claim C7 (confirmed): when filtering the process list to the configured
group and RUNNING state yields zero matches, the cycle logs a "no processes"
message, performs no stop or start RPC call, and propagates no error. -/
theorem no_matches_no_action (rpc : RPC) (checks : List Check)
    (process_group : String)
    (h : get_process_spec_list rpc process_group (some ProcessStates.RUNNING) =
      ([Action.getAllCall], Except.ok [])) :
    check_processes rpc checks process_group =
      DispatchResult.noProcesses [Action.getAllCall,
        Action.log ("No processes in state RUNNING found for process group " ++
          process_group)] ∧
    (∀ a ∈ (check_processes rpc checks process_group).trace,
      a.isStopOrStart = false) ∧
    (check_processes rpc checks process_group).fault = none := by
  have hcp : check_processes rpc checks process_group =
      DispatchResult.noProcesses [Action.getAllCall,
        Action.log ("No processes in state RUNNING found for process group " ++
          process_group)] := by
    simp [check_processes, h]
  refine ⟨hcp, ?_, ?_⟩
  · intro a ha
    rw [hcp] at ha
    simp only [DispatchResult.trace, List.mem_cons, List.mem_singleton,
      List.not_mem_nil, or_false] at ha
    rcases ha with rfl | rfl <;> simp [Action.isStopOrStart]
  · rw [hcp]
    simp [DispatchResult.fault]

/-- Witness for C7: a control plane with no processes at all. -/
theorem no_matches_no_action_witness :
    check_processes rpcEmpty [checkPassA] "grp" =
      DispatchResult.noProcesses [Action.getAllCall,
        Action.log ("No processes in state RUNNING found for process group " ++
          "grp")] ∧
    (∀ a ∈ (check_processes rpcEmpty [checkPassA] "grp").trace,
      a.isStopOrStart = false) ∧
    (check_processes rpcEmpty [checkPassA] "grp").fault = none :=
  no_matches_no_action rpcEmpty [checkPassA] "grp" rfl

/-! ## Claim C8 -/

/-- Claim C8 (confirmed): an event whose kind is not one of the recognized
tick kinds is logged and acknowledged without running a check cycle, and the
loop continues exactly as it would on the remaining input. -/
theorem unknown_event_acked (checks : List Check) (process_group : String)
    (headers : List (String × String)) (rpc : RPC) (rest : List LoopInput)
    (event_type : String)
    (hname : lookupHeader headers "eventname" = some event_type)
    (hunknown : event_type ∉ TICK_EVENTS) :
    runLoop checks process_group (LoopInput.event headers rpc :: rest) =
      ([Action.log ("Received unsupported event type: " ++ event_type),
        Action.ack] ++ (runLoop checks process_group rest).1,
       (runLoop checks process_group rest).2) := by
  simp only [runLoop, hname]
  rw [if_neg hunknown]

/-- Witness for C8: a `PROCESS_STATE_EXITED` event is logged and acked, and
the loop is left waiting for the next event. -/
theorem unknown_event_acked_witness :
    runLoop [] "grp"
      [LoopInput.event [("eventname", "PROCESS_STATE_EXITED")] rpcOk] =
      ([Action.log ("Received unsupported event type: " ++
          "PROCESS_STATE_EXITED"),
        Action.ack] ++ (runLoop [] "grp" []).1,
       (runLoop [] "grp" []).2) :=
  unknown_event_acked [] "grp" [("eventname", "PROCESS_STATE_EXITED")] rpcOk
    [] "PROCESS_STATE_EXITED" rfl (by decide)

/-! ## Claim C9 -/

/-- Claim C9 (confirmed): a header block without an `eventname` field makes
the main loop raise an uncaught `KeyError` at the dictionary indexing,
terminating the loop before any check cycle and before the acknowledgement
is written. -/
theorem missing_eventname_keyerror (checks : List Check)
    (process_group : String) (headers : List (String × String)) (rpc : RPC)
    (rest : List LoopInput)
    (h : lookupHeader headers "eventname" = none) :
    runLoop checks process_group (LoopInput.event headers rpc :: rest) =
      ([], RunOutcome.keyError) ∧
    Action.ack ∉
      (runLoop checks process_group (LoopInput.event headers rpc :: rest)).1 := by
  have he : runLoop checks process_group
      (LoopInput.event headers rpc :: rest) = ([], RunOutcome.keyError) := by
    simp [runLoop, h]
  exact ⟨he, by rw [he]; simp⟩

/-- Witness for C9: a header block carrying only a `ver` field kills the loop
even though further input (the stop signal) was still pending. -/
theorem missing_eventname_keyerror_witness :
    runLoop [] "grp"
      [LoopInput.event [("ver", "3.0")] rpcOk, LoopInput.stopObserved] =
      ([], RunOutcome.keyError) ∧
    Action.ack ∉
      (runLoop [] "grp"
        [LoopInput.event [("ver", "3.0")] rpcOk, LoopInput.stopObserved]).1 :=
  missing_eventname_keyerror [] "grp" [("ver", "3.0")] rpcOk
    [LoopInput.stopObserved] rfl

/-! ## Claim C10 -/

/-- Claim C10 (confirmed): every log line renders its timestamp with the
format string `'%Y/%M/%d %H:%M:%S'`, whose `%M` is the minute — so the middle
field of the date portion is the current minute, not the month — and the line
written to the error stream is `<timestamp> [<daemon-name>] <message>`,
followed immediately by a flush. -/
theorem log_line_format (dt : DateTime) (name msg : String) :
    log_method dt name msg =
      [StderrOp.write (strftime dt "%Y/%M/%d %H:%M:%S" ++ " [" ++ name ++
        "] " ++ msg ++ "\n"),
       StderrOp.flush] ∧
    strftime dt "%Y/%M/%d %H:%M:%S" =
      pad4 dt.year ++ "/" ++ pad2 dt.minute ++ "/" ++ pad2 dt.day ++ " " ++
      pad2 dt.hour ++ ":" ++ pad2 dt.minute ++ ":" ++ pad2 dt.second := by
  refine ⟨rfl, ?_⟩
  show pad4 dt.year ++ ("/" ++ (pad2 dt.minute ++ ("/" ++ (pad2 dt.day ++
    (" " ++ (pad2 dt.hour ++ (":" ++ (pad2 dt.minute ++ (":" ++
    (pad2 dt.second ++ "")))))))))) = _
  simp only [String.append_empty, ← String.append_assoc]

/-! ## Claim C2 -/

theorem checksRun_cons_log (m : String) (t : List Action) :
    checksRun (Action.log m :: t) = checksRun t := rfl

theorem checksRun_cons_checkCall (n p : String) (t : List Action) :
    checksRun (Action.checkCall n p :: t) = n :: checksRun t := rfl

theorem restartAttempts_cons_log (m : String) (t : List Action) :
    restartAttempts (Action.log m :: t) = restartAttempts t := by
  simp [restartAttempts_cons, Action.isRestartFetch]

theorem restartAttempts_cons_checkCall (n p : String) (t : List Action) :
    restartAttempts (Action.checkCall n p :: t) = restartAttempts t := by
  simp [restartAttempts_cons, Action.isRestartFetch]

/-- When the restart transition does not raise, `_check_and_restart` enters
`_restart_process` at most once. -/
theorem restartAttempts_le_one (rpc : RPC) (ps : ProcessSpec)
    (hnr : (restart_process rpc ps).2 = none) :
    ∀ checks : List Check,
      restartAttempts (check_and_restart rpc checks ps) ≤ 1
  | [] => by simp [check_and_restart, restartAttempts]
  | check :: rest => by
      cases hc : check.run ps with
      | pass =>
          rw [check_and_restart_cons_pass rpc check rest ps hc,
            restartAttempts_cons_log, restartAttempts_cons_checkCall,
            restartAttempts_cons_log]
          exact restartAttempts_le_one rpc ps hnr rest
      | err m =>
          rw [check_and_restart_cons_err rpc check rest ps m hc,
            restartAttempts_cons_log, restartAttempts_cons_checkCall,
            restartAttempts_cons_log]
          exact restartAttempts_le_one rpc ps hnr rest
      | fail =>
          rw [check_and_restart_cons_fail rpc check rest ps hc hnr,
            restartAttempts_cons_log, restartAttempts_cons_checkCall,
            restartAttempts_cons_log, restartAttempts_restart rpc ps]

/-- When the restart transition does not raise and the first failing check
follows a fail-free prefix, exactly the prefix plus that check run, and
exactly one restart is attempted. -/
theorem first_fail_runs_prefix (rpc : RPC) (ps : ProcessSpec)
    (hnr : (restart_process rpc ps).2 = none) (check : Check)
    (post : List Check) (hc : check.run ps = CheckResult.fail) :
    ∀ pre : List Check, (∀ c ∈ pre, c.run ps ≠ CheckResult.fail) →
      checksRun (check_and_restart rpc (pre ++ check :: post) ps) =
        (pre ++ [check]).map Check.NAME ∧
      restartAttempts (check_and_restart rpc (pre ++ check :: post) ps) = 1
  | [], _ => by
      rw [List.nil_append,
        check_and_restart_cons_fail rpc check post ps hc hnr]
      constructor
      · rw [checksRun_cons_log, checksRun_cons_checkCall, checksRun_cons_log,
          checksRun_restart rpc ps]
        simp
      · rw [restartAttempts_cons_log, restartAttempts_cons_checkCall,
          restartAttempts_cons_log, restartAttempts_restart rpc ps]
  | c :: pre, hpre => by
      have hcne := hpre c (List.mem_cons_self c pre)
      have ih := first_fail_runs_prefix rpc ps hnr check post hc pre
        (fun d hd => hpre d (List.mem_cons_of_mem c hd))
      cases hcc : c.run ps with
      | fail => exact absurd hcc hcne
      | pass =>
          rw [List.cons_append,
            check_and_restart_cons_pass rpc c (pre ++ check :: post) ps hcc]
          constructor
          · rw [checksRun_cons_log, checksRun_cons_checkCall,
              checksRun_cons_log, ih.1]
            simp
          · rw [restartAttempts_cons_log, restartAttempts_cons_checkCall,
              restartAttempts_cons_log, ih.2]
      | err m =>
          rw [List.cons_append,
            check_and_restart_cons_err rpc c (pre ++ check :: post) ps m hcc]
          constructor
          · rw [checksRun_cons_log, checksRun_cons_checkCall,
              checksRun_cons_log, ih.1]
            simp
          · rw [restartAttempts_cons_log, restartAttempts_cons_checkCall,
              restartAttempts_cons_log, ih.2]

/-- Claim C2 counterexample: when the restart transition raises (here its
`getProcessInfo` re-fetch faults), the exception is caught at the per-check
boundary and the loop moves on: after failing check `B`, check `C` is still
evaluated — contradicting "no later check in the list is evaluated" — and
`_restart_process` is entered twice in the same tick for the same process. -/
theorem later_checks_after_failed_restart :
    checksRun (check_and_restart rpcInfoFault [checkFailB, checkFailC] psW) =
      ["B", "C"] ∧
    restartAttempts
      (check_and_restart rpcInfoFault [checkFailB, checkFailC] psW) = 2 :=
  ⟨by decide, by decide⟩

/-- Claim C2 (corrected): provided every invocation of the restart transition
returns without raising (second component `none`), at most one restart is
attempted per process per tick, and the first check returning false ends the
sequence: for a fail-free prefix followed by a failing check, exactly the
prefix plus that check run and exactly one restart is attempted.  (Without
that proviso the claim fails: see the counterexample.) -/
theorem at_most_one_restart (rpc : RPC) (ps : ProcessSpec)
    (checks : List Check)
    (hnr : (restart_process rpc ps).2 = none) :
    restartAttempts (check_and_restart rpc checks ps) ≤ 1 ∧
    (∀ pre check post, checks = pre ++ check :: post →
      (∀ c ∈ pre, c.run ps ≠ CheckResult.fail) →
      check.run ps = CheckResult.fail →
      checksRun (check_and_restart rpc checks ps) =
        (pre ++ [check]).map Check.NAME ∧
      restartAttempts (check_and_restart rpc checks ps) = 1) := by
  refine ⟨restartAttempts_le_one rpc ps hnr checks, ?_⟩
  intro pre check post hchecks hpre hc
  subst hchecks
  exact first_fail_runs_prefix rpc ps hnr check post hc pre hpre

/-- Witness for the corrected C2, at the spec's own example `[A: pass,
B: fail, C: pass]`: exactly A and B run and exactly one restart is
attempted. -/
theorem at_most_one_restart_witness :
    checksRun
      (check_and_restart rpcOk [checkPassA, checkFailB, checkPassC] psW) =
      ([checkPassA] ++ [checkFailB]).map Check.NAME ∧
    restartAttempts
      (check_and_restart rpcOk [checkPassA, checkFailB, checkPassC] psW) =
      1 :=
  (at_most_one_restart rpcOk psW [checkPassA, checkFailB, checkPassC]
    rfl).2 [checkPassA] checkFailB [checkPassC] rfl (by decide) rfl

/-! ## Claim C4 -/

/-- Inductive invariant of the pool model: tasks are conserved, no more than
`total` are ever submitted, threads are spawned lazily (never beyond the cap,
never more than one per submit) and each in-flight task occupies a thread. -/
theorem pool_invariant {cap total : Nat} {s : PoolState}
    (h : PoolReachable cap total s) :
    s.pendingTasks + s.inFlight + s.done = s.submitted ∧
    s.submitted ≤ total ∧ s.threads ≤ cap ∧ s.threads ≤ s.submitted ∧
    s.inFlight ≤ s.threads := by
  induction h with
  | init => simp [PoolState.init]
  | step hr hstep ih =>
      obtain ⟨h1, h2, h3, h4, h5⟩ := ih
      cases hstep <;> refine ⟨?_, ?_, ?_, ?_, ?_⟩ <;> simp <;> omega

/-- Claim C4 (confirmed): with `N > 1` matches every match is submitted to a
`ThreadPoolExecutor(MAX_THREADS)` — one task per match; since the executor
spawns at most one thread per submit and never exceeds `max_workers`, every
reachable pool state keeps both the spawned threads and the in-flight
check-and-restart invocations at or below `min(16, N)`, and the `with`
block's `shutdown(wait=True)` exit is possible only once all `N` tasks are
done; with exactly one match the check runs synchronously, producing a
`single` dispatch and no pool. -/
theorem bounded_pool_dispatch (rpc : RPC) (checks : List Check)
    (process_group : String) (p q : ProcessSpec) (rest : List ProcessSpec)
    (h : get_process_spec_list rpc process_group (some ProcessStates.RUNNING) =
      ([Action.getAllCall], Except.ok (p :: q :: rest))) :
    check_processes rpc checks process_group =
      DispatchResult.pooled MAX_THREADS [Action.getAllCall]
        ((p :: q :: rest).map (check_and_restart rpc checks)) ∧
    ((p :: q :: rest).map (check_and_restart rpc checks)).length =
      (p :: q :: rest).length ∧
    (∀ s, PoolReachable MAX_THREADS (p :: q :: rest).length s →
      s.inFlight ≤ min MAX_THREADS (p :: q :: rest).length ∧
      s.threads ≤ min MAX_THREADS (p :: q :: rest).length) ∧
    (∀ s, PoolReachable MAX_THREADS (p :: q :: rest).length s →
      poolExit (p :: q :: rest).length s →
      s.done = (p :: q :: rest).length) ∧
    (∀ (rpc2 : RPC) (checks2 : List Check) (group2 : String)
        (p0 : ProcessSpec),
      get_process_spec_list rpc2 group2 (some ProcessStates.RUNNING) =
        ([Action.getAllCall], Except.ok [p0]) →
      check_processes rpc2 checks2 group2 =
        DispatchResult.single
          (Action.getAllCall :: check_and_restart rpc2 checks2 p0)) := by
  refine ⟨?_, by simp, ?_, ?_, ?_⟩
  · simp [check_processes, h]
  · intro s hs
    obtain ⟨h1, h2, h3, h4, h5⟩ := pool_invariant hs
    constructor <;> omega
  · intro s hs hexit
    obtain ⟨he1, he2, he3⟩ := hexit
    obtain ⟨h1, h2, h3, h4, h5⟩ := pool_invariant hs
    omega
  · intro rpc2 checks2 group2 p0 h2
    simp [check_processes, h2]

/-- Witness for C4: two RUNNING processes in the group are dispatched to the
pool, whose reachable states never exceed `min(16, 2)` in-flight tasks. -/
theorem bounded_pool_dispatch_witness :
    check_processes rpcTwo [] "grp" =
      DispatchResult.pooled MAX_THREADS [Action.getAllCall]
        (([psW, psW2]).map (check_and_restart rpcTwo [])) ∧
    (([psW, psW2]).map (check_and_restart rpcTwo [])).length =
      ([psW, psW2]).length ∧
    (∀ s, PoolReachable MAX_THREADS ([psW, psW2]).length s →
      s.inFlight ≤ min MAX_THREADS ([psW, psW2]).length ∧
      s.threads ≤ min MAX_THREADS ([psW, psW2]).length) ∧
    (∀ s, PoolReachable MAX_THREADS ([psW, psW2]).length s →
      poolExit ([psW, psW2]).length s → s.done = ([psW, psW2]).length) ∧
    (∀ (rpc2 : RPC) (checks2 : List Check) (group2 : String)
        (p0 : ProcessSpec),
      get_process_spec_list rpc2 group2 (some ProcessStates.RUNNING) =
        ([Action.getAllCall], Except.ok [p0]) →
      check_processes rpc2 checks2 group2 =
        DispatchResult.single
          (Action.getAllCall :: check_and_restart rpc2 checks2 p0)) :=
  bounded_pool_dispatch rpcTwo [] "grp" psW psW2 [] rfl

/-! ## Claim C1 -/

/-- The loop's normal exit only ever comes from observing the stop signal,
either at the loop head or as `WaitInterrupted` during the blocking wait. -/
theorem normal_exit_needs_stop (checks : List Check) (process_group : String) :
    ∀ script : List LoopInput,
      (runLoop checks process_group script).2 = RunOutcome.normalExit →
      ∃ inp ∈ script,
        inp = LoopInput.stopObserved ∨ inp = LoopInput.interrupted
  | [] => by intro h; simp [runLoop] at h
  | LoopInput.stopObserved :: rest => fun _ =>
      ⟨LoopInput.stopObserved, List.mem_cons_self _ _, Or.inl rfl⟩
  | LoopInput.interrupted :: rest => fun _ =>
      ⟨LoopInput.interrupted, List.mem_cons_self _ _, Or.inr rfl⟩
  | LoopInput.event headers rpc :: rest => by
      intro h
      simp only [runLoop] at h
      split at h
      · simp at h
      · split at h
        · split at h
          · simp at h
          · obtain ⟨inp, hmem, hstop⟩ :=
              normal_exit_needs_stop checks process_group rest h
            exact ⟨inp, List.mem_cons_of_mem _ hmem, hstop⟩
        · obtain ⟨inp, hmem, hstop⟩ :=
            normal_exit_needs_stop checks process_group rest h
          exact ⟨inp, List.mem_cons_of_mem _ hmem, hstop⟩

/-- Claim C1 counterexample: an RPC fault during process enumeration does NOT
leave the loop alive.  On a `TICK_5` event whose `getAllProcessInfo` faults,
the exception propagates out of `_check_processes` — the only `try` in `run`
wraps the wait call — so the loop terminates with the fault: the event is
never acknowledged and the remaining input (here the stop signal) is never
processed; the daemon has died of an RPC error, not of a termination
signal. -/
theorem enum_fault_kills_loop :
    runLoop [] "grp"
      [LoopInput.event [("eventname", "TICK_5")] rpcEnumFault,
       LoopInput.stopObserved] =
      ([Action.getAllCall], RunOutcome.enumFault "connection refused") ∧
    RunOutcome.enumFault "connection refused" ≠ RunOutcome.normalExit ∧
    RunOutcome.enumFault "connection refused" ≠ RunOutcome.pending ∧
    Action.ack ∉ [Action.getAllCall] :=
  ⟨rfl, by decide, by decide, by decide⟩

/-- Claim C1 (corrected): faults inside a tick's per-process processing
(check errors, restart-time RPC faults) never terminate the loop — any event
whose dispatch propagates no exception is processed, acknowledged, and the
loop continues exactly as on the remaining input — and a normal exit only
ever follows the stop signal.  However, an RPC fault during process
enumeration is NOT isolated: it propagates out of the main loop and
terminates the daemon (see the counterexample), so "never terminates because
of an RPC error" does not hold for enumeration faults. -/
theorem loop_survives_handled_ticks (checks : List Check)
    (process_group : String) (headers : List (String × String)) (rpc : RPC)
    (rest : List LoopInput) (event_type : String)
    (hname : lookupHeader headers "eventname" = some event_type)
    (hfault : (check_processes rpc checks process_group).fault = none) :
    (∃ t, runLoop checks process_group (LoopInput.event headers rpc :: rest) =
      (t ++ Action.ack :: (runLoop checks process_group rest).1,
       (runLoop checks process_group rest).2)) ∧
    (∀ script : List LoopInput,
      (runLoop checks process_group script).2 = RunOutcome.normalExit →
      ∃ inp ∈ script,
        inp = LoopInput.stopObserved ∨ inp = LoopInput.interrupted) := by
  constructor
  · by_cases ht : event_type ∈ TICK_EVENTS
    · refine ⟨(check_processes rpc checks process_group).trace, ?_⟩
      simp only [runLoop, hname]
      rw [if_pos ht, hfault]
      simp
    · refine
        ⟨[Action.log ("Received unsupported event type: " ++ event_type)], ?_⟩
      simp only [runLoop, hname]
      rw [if_neg ht]
      simp
  · exact normal_exit_needs_stop checks process_group

/-- Witness for the corrected C1: a healthy `TICK_5` tick is dispatched and
acknowledged, and the loop goes back to waiting. -/
theorem loop_survives_handled_ticks_witness :
    (∃ t, runLoop [] "grp" [LoopInput.event [("eventname", "TICK_5")] rpcOk] =
      (t ++ Action.ack :: (runLoop [] "grp" []).1, (runLoop [] "grp" []).2)) ∧
    (∀ script : List LoopInput,
      (runLoop [] "grp" script).2 = RunOutcome.normalExit →
      ∃ inp ∈ script,
        inp = LoopInput.stopObserved ∨ inp = LoopInput.interrupted) :=
  loop_survives_handled_ticks [] "grp" [("eventname", "TICK_5")] rpcOk []
    "TICK_5" rfl rfl

end CheckRunner
